import Mathlib

/-!
Shallow embedding of the concurrent TCP port scanner in src/rust/src/main.rs.

Network interaction is abstracted into explicit environment functions:
the outcome of each connect attempt, the bytes delivered by a banner
read, whether a spawned task joins successfully, and the measured probe
durations.  Every definition below is a direct transcription of the
corresponding Rust code; doc comments name the source construct.
-/

namespace PortScan

/-- Command-line arguments of the scanner, mirroring `struct Args` in
main.rs.  The host string and resolved addresses are lists of
characters; durations are in milliseconds as natural numbers. -/
structure Args where
  host : List Char
  start : Nat
  «end» : Nat
  workers : Nat
  timeout : Nat
  json : Bool
  retries : Nat
  adaptive : Bool
  fast_public : Bool
deriving DecidableEq

/-- One record per port, mirroring `struct ResultRec` in main.rs.  The
banner is kept as the raw bytes read from the socket; the Rust code
decodes them with a permissive, total decoder
(String::from_utf8_lossy), so presence of a banner depends only on the
byte count, never on byte values. -/
structure ResultRec where
  port : Nat
  status : String
  banner : Option (List Nat)
deriving DecidableEq

/-- Outcome of one timeout-guarded connect attempt, abstracting
`timeout(timeout_dur, TcpStream::connect(addr))`: the connection
succeeded (carrying the banner-read result), was actively refused
(Ok(Err(_))), or the timeout expired (Err(_)). -/
inductive AttemptResult where
  | connected (readRes : Option (List Nat))
  | refused
  | timedOut
deriving DecidableEq

/-- Result of the bounded banner read,
`timeout(Duration::from_millis(50), stream.read(&mut buf))`: `some bs`
models Ok(Ok(n)) with `bs` the `n` bytes read (possibly zero), `none`
models a read error or an expired read deadline. -/
def bannerFrom (readRes : Option (List Nat)) : Option (List Nat) :=
  match readRes with
  | some bs => if bs.length > 0 then some bs else none
  | none => none

/-- Per-port attempt loop, mirroring `for try_idx in 0..attempts` in the
spawned task.  `conn i` is the outcome of the attempt with index `i`.
The loop counter is split into the next attempt index `try_idx` and the
number `rem` of loop iterations still allowed (initially `attempts`),
so that the recursion is structural on `rem`; `0 < rem - 1` after
consuming one iteration is exactly the source guard
`try_idx + 1 < attempts`. -/
def attemptLoop (conn : Nat → AttemptResult) (port : Nat) : Nat → Nat → ResultRec
  | _, 0 => { port := port, status := "closed", banner := none }
  | try_idx, rem + 1 =>
    match conn try_idx with
    | .connected readRes =>
      { port := port, status := "open", banner := bannerFrom readRes }
    | .refused => { port := port, status := "closed", banner := none }
    | .timedOut =>
      if 0 < rem then attemptLoop conn port (try_idx + 1) rem
      else { port := port, status := "closed", banner := none }

/-- Body of one spawned per-port task: `retries + 1` total attempts
starting at index 0, as in `let attempts = retries + 1`. -/
def scanPort (conn : Nat → AttemptResult) (retries : Nat) (port : Nat) : ResultRec :=
  attemptLoop conn port 0 (retries + 1)

/-- Number of connect attempts the loop actually issues, following the
same control flow as `attemptLoop`: `made` attempts already issued,
`rem` loop iterations still allowed. -/
def attemptsMade (conn : Nat → AttemptResult) : Nat → Nat → Nat
  | made, 0 => made
  | made, rem + 1 =>
    match conn made with
    | .connected _ => made + 1
    | .refused => made + 1
    | .timedOut => if 0 < rem then attemptsMade conn (made + 1) rem else made + 1

/-- Probe ports of the latency prober, `let samples = [22, 80, 443, 53, 25]`. -/
def samples : List Nat := [22, 80, 443, 53, 25]

/-- Numeric core of `estimate_timeout` in main.rs: sort the measured
durations (Vec::sort is an ascending stable sort), take the middle
element, multiply by 3, floor at 150 ms and cap at `max_timeout`. -/
def estimate_timeout (durations : List Nat) (max_timeout : Nat) : Nat :=
  let sorted := List.insertionSort (fun a b => a ≤ b) durations
  let median := sorted.getD (sorted.length / 2) 0
  let floor := 150
  let derived := median * 3
  let derived := if derived < floor then floor else derived
  if derived > max_timeout then max_timeout else derived

/-- Effective scan settings after the fast-public overrides, mirroring
the block from `let base_timeout = ...` through
`if args.fast_public { ... }` in main.  `probeDur p` is the elapsed
wall time measured by the latency probe of port `p`. -/
structure Effective where
  timeout_dur : Nat
  workers : Nat
  retries : Nat
deriving DecidableEq

/-- Derivation of the effective settings: adaptive estimation runs only
when `adaptive && !fast_public`; then fast-public caps the timeout at
80 ms, zeroes the retries and floors the workers at 2000, exactly as the
three `if` statements inside `if args.fast_public` do. -/
def effectiveSettings (args : Args) (probeDur : Nat → Nat) : Effective :=
  let base_timeout := args.timeout
  let timeout_dur :=
    if args.adaptive && !args.fast_public
    then estimate_timeout (samples.map probeDur) base_timeout
    else base_timeout
  if args.fast_public then
    { timeout_dur := if 80 < timeout_dur then 80 else timeout_dur
      retries := if 0 < args.retries then 0 else args.retries
      workers := if args.workers < 2000 then 2000 else args.workers }
  else
    { timeout_dur := timeout_dur, retries := args.retries, workers := args.workers }

/-- Inclusive port range `args.start..=args.end`. -/
def portRange (start endPort : Nat) : List Nat :=
  List.range' start (endPort + 1 - start)

/-- Join-and-collect loop `for h in handles { if let Ok(r) = h.await
{ results.push(r) } }`: results of successful joins are pushed in order,
a failed join pushes nothing and raises no error. -/
def collectResults (joins : List (Except Unit ResultRec)) : List ResultRec :=
  joins.filterMap (fun j => match j with | .ok r => some r | .error _ => none)

/-- Primary sweep: one task per port in the range, then the collect
loop.  `joinOk p` tells whether the join of the task of port `p`
succeeds (an Err from `h.await` means the task panicked). -/
def primarySweep (start endPort retries : Nat) (conn : Nat → Nat → AttemptResult)
    (joinOk : Nat → Bool) : List ResultRec :=
  collectResults ((portRange start endPort).map (fun p =>
    if joinOk p then Except.ok (scanPort (conn p) retries p) else Except.error ()))

/-- Sorting of the collected results, `results.sort_by_key(|r| r.port)`
(a stable ascending sort by the port key). -/
def sortByPort (rs : List ResultRec) : List ResultRec :=
  List.insertionSort (fun a b => a.port ≤ b.port) rs

/-- Filter keeping the records with open status,
`results.into_iter().filter(|r| r.status == "open")`. -/
def openFilter (rs : List ResultRec) : List ResultRec :=
  rs.filter (fun r => r.status == "open")

/-- Open list produced by the primary sweep after sorting and
filtering, as handed to the fallback check `if open.is_empty()`. -/
def primaryOpenList (args : Args) (probeDur : Nat → Nat)
    (conn : Nat → Nat → AttemptResult) (joinOk : Nat → Bool) : List ResultRec :=
  openFilter (sortByPort (primarySweep args.start args.«end»
    (effectiveSettings args probeDur).retries conn joinOk))

/-- Well-known ports of the fallback probe, `let common = [22, 80]`. -/
def common : List Nat := [22, 80]

/-- Fallback probe over `common`: a serial connect with a fixed 1000 ms
timeout; on success a record with open status is pushed, its banner
read under a fixed 100 ms deadline.  `connect p t` tells whether a
connect to port `p` succeeds within `t` ms; `readBytes p t` is the
banner read of port `p` under a `t` ms deadline. -/
def fallbackProbe (connect : Nat → Nat → Bool)
    (readBytes : Nat → Nat → Option (List Nat)) : List ResultRec :=
  common.foldl (fun acc p =>
    if connect p 1000 then
      acc ++ [{ port := p, status := "open", banner := bannerFrom (readBytes p 100) }]
    else acc) []

/-- Whole engine pipeline of main after argument validation: primary
sweep, sort, open filter, then the fallback probe appended exactly when
the open list is empty. -/
def runScan (args : Args) (probeDur : Nat → Nat) (conn : Nat → Nat → AttemptResult)
    (joinOk : Nat → Bool) (fbConnect : Nat → Nat → Bool)
    (fbRead : Nat → Nat → Option (List Nat)) : List ResultRec :=
  if (primaryOpenList args probeDur conn joinOk).isEmpty
  then primaryOpenList args probeDur conn joinOk ++ fallbackProbe fbConnect fbRead
  else primaryOpenList args probeDur conn joinOk

/-- Outcome of host resolution, abstracting
`(host, 0).to_socket_addrs()` followed by `it.next()`: a first address,
an empty iterator, or a resolver error. -/
inductive Resolved where
  | addr (ip : List Char)
  | noAddrs
  | resolveErr
deriving DecidableEq

/-- Prologue of main: the range validation `if args.end < args.start`
exits with code 2 before resolution is consulted; resolution failure
(no address, or a resolver error) exits with code 1.  The resolver is
passed as a thunk so that the validation branch provably never consults
it. -/
def validateAndResolve (args : Args) (resolver : Unit → Resolved) :
    Except Nat (List Char) :=
  if args.«end» < args.start then Except.error 2
  else
    match resolver () with
    | .addr ip => Except.ok ip
    | .noAddrs => Except.error 1
    | .resolveErr => Except.error 1

/-- IPv4 address, the only shape the socket-address parser model below
produces. -/
inductive IpAddr where
  | v4 (a b c d : Nat)
deriving DecidableEq

/-- Socket address: an address and a port. -/
structure SockAddr where
  ip : IpAddr
  port : Nat
deriving DecidableEq

/-- Splitting of a character list on a separator, with the semantics of
the standard split: `n` separators yield `n + 1` pieces. -/
def splitOnChar (sep : Char) : List Char → List (List Char)
  | [] => [[]]
  | c :: cs =>
    let rest := splitOnChar sep cs
    if c = sep then [] :: rest
    else
      match rest with
      | [] => [[c]]
      | r :: rs => (c :: r) :: rs

/-- Value of a decimal digit character, none for a non-digit. -/
def digitVal (c : Char) : Option Nat :=
  if c.isDigit then some (c.toNat - 48) else none

/-- Decimal reading of a character list: all characters must be digits
and at least one must be present. -/
def parseDecimal (cs : List Char) : Option Nat :=
  if cs = [] then none
  else cs.foldl (fun acc c => do
    let a ← acc
    let d ← digitVal c
    pure (a * 10 + d)) (some 0)

/-- One IPv4 octet: a decimal value up to 255 with no leading zero
(matching the std parser, which rejects zero-prefixed octets). -/
def parseOctet (cs : List Char) : Option Nat :=
  match parseDecimal cs with
  | some v =>
    if v ≤ 255 ∧ (cs.length = 1 ∨ cs.head? ≠ some '0') then some v else none
  | none => none

/-- Dotted-quad IPv4 address: exactly four octets separated by dots. -/
def parseIpv4 (cs : List Char) : Option IpAddr :=
  match splitOnChar '.' cs with
  | [a, b, c, d] => do
    pure (IpAddr.v4 (← parseOctet a) (← parseOctet b) (← parseOctet c) (← parseOctet d))
  | _ => none

/-- Port number: a decimal value up to 65535. -/
def parsePortNum (cs : List Char) : Option Nat :=
  match parseDecimal cs with
  | some v => if v ≤ 65535 then some v else none
  | none => none

/-- Model of the std SocketAddr parser (`addr.parse()`) on the strings
this program builds: a single colon separating a dotted-quad IPv4
address from a port parses; anything else fails.  In particular an
unbracketed IPv6 literal contains more than one colon (or none of the
dotted-quad shape) and fails, exactly as the std parser rejects IPv6
socket addresses written without brackets. -/
def parseSocketAddr (cs : List Char) : Option SockAddr :=
  match splitOnChar ':' cs with
  | [h, p] => do
    pure { ip := ← parseIpv4 h, port := ← parsePortNum p }
  | _ => none

/-- Probe address string `format!("{}:{}", ip, sp)`. -/
def formatAddr (ip : List Char) (sp : Nat) : List Char :=
  ip ++ [':'] ++ Nat.toDigits 10 sp

/-- Destination of one latency probe, mirroring
`addr.parse().ok().unwrap_or_else(|| SocketAddr::from(([127,0,0,1], sp)))`
in estimate_timeout: the parsed address when parsing succeeds, and
silently 127.0.0.1 at the probe port when it fails. -/
def probeDest (ip : List Char) (sp : Nat) : SockAddr :=
  match parseSocketAddr (formatAddr ip sp) with
  | some a => a
  | none => { ip := IpAddr.v4 127 0 0 1, port := sp }

instance : IsTotal ResultRec (fun a b => a.port ≤ b.port) :=
  ⟨fun a b => Nat.le_total a.port b.port⟩

instance : IsTrans ResultRec (fun a b => a.port ≤ b.port) :=
  ⟨fun _ _ _ => Nat.le_trans⟩

/-- Helper: the attempt loop always reports the port it was given. -/
theorem attemptLoop_port (conn : Nat → AttemptResult) (port : Nat) :
    ∀ rem try_idx, (attemptLoop conn port try_idx rem).port = port := by
  intro rem
  induction rem with
  | zero => intro t; rfl
  | succ n ih =>
    intro t
    simp only [attemptLoop]
    cases conn t
    · rfl
    · rfl
    · by_cases h0 : 0 < n <;> simp [h0, ih]

/-- Helper: the spawned task body reports its own port. -/
theorem scanPort_port (conn : Nat → AttemptResult) (retries port : Nat) :
    (scanPort conn retries port).port = port :=
  attemptLoop_port conn port (retries + 1) 0

/-- Helper: a record with a banner can only come out of the connected
branch, whose status is open. -/
theorem attemptLoop_banner_open (conn : Nat → AttemptResult) (port : Nat) :
    ∀ rem try_idx, (attemptLoop conn port try_idx rem).banner ≠ none →
      (attemptLoop conn port try_idx rem).status = "open" := by
  intro rem
  induction rem with
  | zero => intro t h; exact absurd rfl h
  | succ n ih =>
    intro t
    simp only [attemptLoop]
    cases conn t
    · intro _; rfl
    · intro h; exact absurd rfl h
    · by_cases h0 : 0 < n <;> simp only [h0, if_true, if_false, reduceIte]
      · exact ih (t + 1)
      · intro h; exact absurd rfl h

/-- Helper: when every attempt times out, the loop uses up its whole
iteration budget. -/
theorem attemptsMade_allTimeout (conn : Nat → AttemptResult)
    (h : ∀ i, conn i = AttemptResult.timedOut) :
    ∀ rem made, attemptsMade conn made rem = made + rem := by
  intro rem
  induction rem with
  | zero => intro made; rfl
  | succ n ih =>
    intro made
    simp only [attemptsMade, h made]
    by_cases h0 : 0 < n
    · simp only [h0, if_true, reduceIte, ih (made + 1)]; omega
    · have : n = 0 := by omega
      simp [this]

/-- Helper: when every attempt times out, the loop ends closed. -/
theorem attemptLoop_allTimeout_closed (conn : Nat → AttemptResult) (port : Nat)
    (h : ∀ i, conn i = AttemptResult.timedOut) :
    ∀ rem try_idx, (attemptLoop conn port try_idx rem).status = "closed" := by
  intro rem
  induction rem with
  | zero => intro t; rfl
  | succ n ih =>
    intro t
    simp only [attemptLoop, h t]
    by_cases h0 : 0 < n <;> simp [h0, ih]

/-- Helper: timeouts up to attempt index `t + d`, then a successful
connection there, yield the open record of that connection, provided
the iteration budget `rem` covers index `d`. -/
theorem attemptLoop_reach_connected (conn : Nat → AttemptResult) (port : Nat)
    (readRes : Option (List Nat)) :
    ∀ d rem t, d < rem → (∀ j, t ≤ j → j < t + d → conn j = AttemptResult.timedOut) →
      conn (t + d) = AttemptResult.connected readRes →
      attemptLoop conn port t rem
        = { port := port, status := "open", banner := bannerFrom readRes } := by
  intro d
  induction d with
  | zero =>
    intro rem t hrem _ hc
    match rem, hrem with
    | n + 1, _ =>
      simp only [attemptLoop]
      rw [show t + 0 = t from rfl] at hc
      rw [hc]
  | succ d ih =>
    intro rem t hrem hto hc
    match rem, hrem with
    | n + 1, _ =>
      have ht : conn t = AttemptResult.timedOut := hto t (Nat.le_refl t) (by omega)
      have hn : 0 < n := by omega
      simp only [attemptLoop, ht, hn, if_true, reduceIte]
      have hc2 : conn (t + 1 + d) = AttemptResult.connected readRes := by
        have : t + 1 + d = t + (d + 1) := by omega
        rw [this]; exact hc
      exact ih n (t + 1) (by omega) (fun j hj1 hj2 => hto j (by omega) (by omega)) hc2

/-- Helper: the ports of the collected records are exactly the ports of
the successfully joined tasks, in range order. -/
theorem collect_map_port (retries : Nat) (conn : Nat → Nat → AttemptResult)
    (joinOk : Nat → Bool) :
    ∀ ps : List Nat,
      (collectResults (ps.map (fun p =>
        if joinOk p then Except.ok (scanPort (conn p) retries p)
        else Except.error ()))).map (fun r => r.port) = ps.filter joinOk := by
  intro ps
  induction ps with
  | nil => rfl
  | cons p ps ih =>
    simp only [collectResults, List.map_cons, List.filterMap_cons, List.filter_cons] at ih ⊢
    cases h : joinOk p
    · simpa [h] using ih
    · simpa [h, scanPort_port] using ih

/-- Helper: the ports reported by the primary sweep are the
successfully joined ports of the range, in order. -/
theorem sweep_map_port (start endPort retries : Nat) (conn : Nat → Nat → AttemptResult)
    (joinOk : Nat → Bool) :
    (primarySweep start endPort retries conn joinOk).map (fun r => r.port)
      = (portRange start endPort).filter joinOk :=
  collect_map_port retries conn joinOk (portRange start endPort)

/-- Helper: the sweep never reports the same port twice. -/
theorem sweep_ports_nodup (start endPort retries : Nat) (conn : Nat → Nat → AttemptResult)
    (joinOk : Nat → Bool) :
    ((primarySweep start endPort retries conn joinOk).map (fun r => r.port)).Nodup := by
  rw [sweep_map_port]
  exact (List.nodup_range' start (endPort + 1 - start)).filter joinOk

/-- Claim C1, counterexample to the claim as stated: on the range
[80, 80] with the join of the single spawned task failing (the task
panicked), the collect loop of main pushes nothing and raises no error
(its result type carries no error channel), so the sweep holds 0
records instead of the claimed end - start + 1 = 1: the port is
silently missing rather than surfacing as an engine-level error. -/
theorem c1_one_outcome_per_port_counterexample :
    ¬ ((primarySweep 80 80 1 (fun _ _ => AttemptResult.refused) (fun _ => false)).length
        = 80 + 1 - 80) := by decide

/-- Claim C1 as amended: the primary sweep holds exactly one record per
port of the range whose task join succeeded, in ascending range order;
in particular, when every join succeeds it holds exactly
end - start + 1 records, none dropped and none duplicated.  A failed
join silently drops that port instead of raising an engine-level
error. -/
theorem c1_one_outcome_per_joined_port (start endPort retries : Nat)
    (conn : Nat → Nat → AttemptResult) (joinOk : Nat → Bool) :
    ((primarySweep start endPort retries conn joinOk).map (fun r => r.port)
      = (portRange start endPort).filter joinOk) ∧
    ((∀ p, joinOk p = true) →
      (primarySweep start endPort retries conn joinOk).length = endPort + 1 - start) := by
  refine ⟨sweep_map_port start endPort retries conn joinOk, ?_⟩
  intro hall
  have h1 : (primarySweep start endPort retries conn joinOk).length
      = ((primarySweep start endPort retries conn joinOk).map (fun r => r.port)).length :=
    (List.length_map _ _).symm
  rw [h1, sweep_map_port, List.filter_eq_self.mpr (fun a _ => hall a), portRange,
    List.length_range']

/-- Witness for the amended C1 on the range [10, 12] with every join
succeeding: three records are collected. -/
theorem c1_one_outcome_per_joined_port_witness :
    (∀ p : Nat, (fun _ : Nat => true) p = true) ∧
    (primarySweep 10 12 0 (fun _ _ => AttemptResult.refused) (fun _ => true)).length
      = 12 + 1 - 10 :=
  ⟨fun _ => rfl,
    (c1_one_outcome_per_joined_port 10 12 0 (fun _ _ => AttemptResult.refused)
      (fun _ => true)).2 (fun _ => rfl)⟩

/-- Claim C2: with a remote that actively refuses, the per-port loop
issues exactly one connect attempt and yields a closed record; with a
remote on which every attempt times out, it issues exactly
`retries + 1` attempts (all under the same effective timeout, which the
loop never changes) and yields a closed record. -/
theorem c2_attempt_policy (retries port : Nat) (connR connT : Nat → AttemptResult)
    (hr : ∀ i, connR i = AttemptResult.refused)
    (ht : ∀ i, connT i = AttemptResult.timedOut) :
    attemptsMade connR 0 (retries + 1) = 1 ∧
    (scanPort connR retries port).status = "closed" ∧
    attemptsMade connT 0 (retries + 1) = retries + 1 ∧
    (scanPort connT retries port).status = "closed" := by
  refine ⟨?_, ?_, ?_, ?_⟩
  · simp [attemptsMade, hr 0]
  · simp [scanPort, attemptLoop, hr 0]
  · rw [attemptsMade_allTimeout connT ht (retries + 1) 0]; omega
  · exact attemptLoop_allTimeout_closed connT port ht (retries + 1) 0

/-- Witness for C2 at `retries = 2`, `port = 80`, with the constant
refused and constant timed-out attempt behaviors. -/
theorem c2_attempt_policy_witness :
    attemptsMade (fun _ => AttemptResult.refused) 0 (2 + 1) = 1 ∧
    (scanPort (fun _ => AttemptResult.refused) 2 80).status = "closed" ∧
    attemptsMade (fun _ => AttemptResult.timedOut) 0 (2 + 1) = 2 + 1 ∧
    (scanPort (fun _ => AttemptResult.timedOut) 2 80).status = "closed" :=
  c2_attempt_policy 2 80 _ _ (fun _ => rfl) (fun _ => rfl)

/-- Claim C3: with fast_public set, the effective per-attempt timeout is
at most 80 ms, the effective retries value is exactly 0, and the
effective worker limit is at least 2000, for every input configuration
and every probed latency; the overrides happen in `effectiveSettings`,
which the sweep consumes before any attempt is scheduled. -/
theorem c3_fast_public_overrides (args : Args) (probeDur : Nat → Nat)
    (h : args.fast_public = true) :
    (effectiveSettings args probeDur).timeout_dur ≤ 80 ∧
    (effectiveSettings args probeDur).retries = 0 ∧
    2000 ≤ (effectiveSettings args probeDur).workers := by
  simp only [effectiveSettings, h, Bool.not_true, Bool.and_false, if_true, reduceIte]
  refine ⟨?_, ?_, ?_⟩ <;> dsimp only <;> split_ifs <;> omega

/-- Witness for C3 at a configuration with a long timeout, 5 retries
and a single worker. -/
theorem c3_fast_public_overrides_witness :
    ({ host := [], start := 1, «end» := 1024, workers := 1, timeout := 300, json := false,
       retries := 5, adaptive := true, fast_public := true } : Args).fast_public = true ∧
    ((effectiveSettings
        { host := [], start := 1, «end» := 1024, workers := 1, timeout := 300, json := false,
          retries := 5, adaptive := true, fast_public := true } (fun _ => 0)).timeout_dur ≤ 80 ∧
     (effectiveSettings
        { host := [], start := 1, «end» := 1024, workers := 1, timeout := 300, json := false,
          retries := 5, adaptive := true, fast_public := true } (fun _ => 0)).retries = 0 ∧
     2000 ≤ (effectiveSettings
        { host := [], start := 1, «end» := 1024, workers := 1, timeout := 300, json := false,
          retries := 5, adaptive := true, fast_public := true } (fun _ => 0)).workers) :=
  ⟨rfl, c3_fast_public_overrides _ (fun _ => 0) rfl⟩

/-- Claim C4: for five samples the sorted middle element is the median;
the estimate is that median times 3, floored at 150 ms and then capped
at the ceiling.  On the samples [10,12,14,16,1000] the median is 14,
the derived 42 ms is floored to 150 ms, and the result is
`min 150 ceiling` for every ceiling. -/
theorem c4_estimate_timeout_median :
    (∀ (durations : List Nat) (ceiling : Nat), durations.length = 5 →
      estimate_timeout durations ceiling
        = min (max ((List.insertionSort (fun a b => a ≤ b) durations).getD 2 0 * 3) 150)
            ceiling) ∧
    (∀ ceiling : Nat, estimate_timeout [10, 12, 14, 16, 1000] ceiling = min 150 ceiling) ∧
    (List.insertionSort (fun a b => a ≤ b) [10, 12, 14, 16, 1000]).getD 2 0 = 14 := by
  refine ⟨?_, ?_, by decide⟩
  · intro ds c h5
    have hlen : (List.insertionSort (fun a b => a ≤ b) ds).length = 5 := by
      rw [List.length_insertionSort]; exact h5
    simp only [estimate_timeout, hlen]
    rw [show (5 : Nat) / 2 = 2 from rfl]
    rw [Nat.max_comm, Nat.max_def, Nat.min_def]
    split_ifs <;> omega
  · intro c
    have h : estimate_timeout [10, 12, 14, 16, 1000] c
        = if 150 > c then c else 150 := rfl
    rw [h, Nat.min_def]
    split_ifs <;> omega

/-- Witness for C4 at the probe samples of the spec with a 200 ms
ceiling. -/
theorem c4_estimate_timeout_median_witness :
    ([10, 12, 14, 16, 1000] : List Nat).length = 5 ∧
    estimate_timeout [10, 12, 14, 16, 1000] 200
      = min (max ((List.insertionSort (fun a b => a ≤ b)
          [10, 12, 14, 16, 1000]).getD 2 0 * 3) 150) 200 :=
  ⟨rfl, c4_estimate_timeout_median.1 [10, 12, 14, 16, 1000] 200 rfl⟩

/-- Claim C8: when the configured end is below the start, the prologue
exits with code 2 without consulting the resolver (the result is the
same for every resolver, so no resolution and no network activity can
have happened), while resolution failure on a valid range exits with
code 1; the two fatal exit codes are distinct. -/
theorem c8_validation_before_resolution (args : Args) (h : args.«end» < args.start) :
    (∀ res₁ res₂ : Unit → Resolved,
      validateAndResolve args res₁ = validateAndResolve args res₂) ∧
    validateAndResolve args (fun _ => Resolved.resolveErr) = Except.error 2 ∧
    (∀ args₂ : Args, ¬ args₂.«end» < args₂.start →
      validateAndResolve args₂ (fun _ => Resolved.noAddrs) = Except.error 1 ∧
      validateAndResolve args₂ (fun _ => Resolved.resolveErr) = Except.error 1) ∧
    (2 : Nat) ≠ 1 := by
  refine ⟨?_, ?_, ?_, by omega⟩
  · intro res₁ res₂; simp [validateAndResolve, h]
  · simp [validateAndResolve, h]
  · intro args₂ h₂; simp [validateAndResolve, h₂]

/-- Witness for C8 at the spec scenario end 5, start 10. -/
theorem c8_validation_before_resolution_witness :
    ({ host := [], start := 10, «end» := 5, workers := 1, timeout := 300, json := false,
       retries := 1, adaptive := true, fast_public := false } : Args).«end» <
      ({ host := [], start := 10, «end» := 5, workers := 1, timeout := 300, json := false,
         retries := 1, adaptive := true, fast_public := false } : Args).start ∧
    validateAndResolve
      { host := [], start := 10, «end» := 5, workers := 1, timeout := 300, json := false,
        retries := 1, adaptive := true, fast_public := false }
      (fun _ => Resolved.resolveErr) = Except.error 2 :=
  ⟨by decide, (c8_validation_before_resolution _ (by decide)).2.1⟩

/-- Helper: the sorted, filtered open list of the primary sweep is
strictly ascending by port. -/
theorem primaryOpen_pairwise_lt (args : Args) (probeDur : Nat → Nat)
    (conn : Nat → Nat → AttemptResult) (joinOk : Nat → Bool) :
    List.Pairwise (fun a b => a.port < b.port)
      (primaryOpenList args probeDur conn joinOk) := by
  unfold primaryOpenList openFilter sortByPort
  apply List.Pairwise.filter
  have hsorted : List.Pairwise (fun a b : ResultRec => a.port ≤ b.port)
      (List.insertionSort (fun a b => a.port ≤ b.port)
        (primarySweep args.start args.«end»
          (effectiveSettings args probeDur).retries conn joinOk)) :=
    List.sorted_insertionSort _ _
  have hperm := ((List.perm_insertionSort (fun a b : ResultRec => a.port ≤ b.port)
      (primarySweep args.start args.«end»
        (effectiveSettings args probeDur).retries conn joinOk)).map
    (fun r : ResultRec => r.port)).symm
  have hnodup := hperm.nodup (sweep_ports_nodup args.start args.«end»
    (effectiveSettings args probeDur).retries conn joinOk)
  have hne : List.Pairwise (fun a b : ResultRec => a.port ≠ b.port)
      (List.insertionSort (fun a b => a.port ≤ b.port)
        (primarySweep args.start args.«end»
          (effectiveSettings args probeDur).retries conn joinOk)) :=
    List.pairwise_map.mp hnodup
  exact (hsorted.and hne).imp (fun h => Nat.lt_of_le_of_ne h.1 h.2)

/-- Helper: the fallback probe list is strictly ascending by port (it
is a sublist of a record for 22 followed by a record for 80). -/
theorem fallback_pairwise_lt (fbConnect : Nat → Nat → Bool)
    (fbRead : Nat → Nat → Option (List Nat)) :
    List.Pairwise (fun a b => a.port < b.port) (fallbackProbe fbConnect fbRead) := by
  unfold fallbackProbe common
  simp only [List.foldl_cons, List.foldl_nil]
  cases h22 : fbConnect 22 1000 <;> cases h80 : fbConnect 80 1000 <;>
    simp [h22, h80, List.pairwise_cons]

/-- Helper: every record the fallback probe pushes has open status and
one of the two well-known ports. -/
theorem fallback_members (fbConnect : Nat → Nat → Bool)
    (fbRead : Nat → Nat → Option (List Nat)) :
    ∀ r ∈ fallbackProbe fbConnect fbRead,
      r.status = "open" ∧ (r.port = 22 ∨ r.port = 80) := by
  intro r hr
  unfold fallbackProbe common at hr
  simp only [List.foldl_cons, List.foldl_nil] at hr
  cases h22 : fbConnect 22 1000 <;> cases h80 : fbConnect 80 1000 <;>
    simp [h22, h80] at hr
  · subst hr; exact ⟨rfl, Or.inr rfl⟩
  · subst hr; exact ⟨rfl, Or.inl rfl⟩
  · rcases hr with hr | hr <;> subst hr
    · exact ⟨rfl, Or.inl rfl⟩
    · exact ⟨rfl, Or.inr rfl⟩

/-- Claim C5: the final record sequence handed to the presentation
layer is sorted strictly ascending by port, hence has no duplicate
port values, in both the primary-only case and the case where
fallback-probe outcomes are merged in. -/
theorem c5_result_strictly_sorted (args : Args) (probeDur : Nat → Nat)
    (conn : Nat → Nat → AttemptResult) (joinOk : Nat → Bool)
    (fbConnect : Nat → Nat → Bool) (fbRead : Nat → Nat → Option (List Nat)) :
    List.Pairwise (fun a b => a.port < b.port)
      (runScan args probeDur conn joinOk fbConnect fbRead) := by
  unfold runScan
  split
  · rename_i hEmpty
    rw [List.isEmpty_iff.mp hEmpty, List.nil_append]
    exact fallback_pairwise_lt fbConnect fbRead
  · exact primaryOpen_pairwise_lt args probeDur conn joinOk

/-- Claim C6: the fallback probe contributes exactly when the primary
open list is empty; its records all have open status and only the
ports 22 and 80; and it depends on the connect environment only through
the fixed 1000 ms connect timeout and on the read environment only
through the fixed 100 ms banner deadline, so it is unaffected by the
adaptive and fast-public configuration. -/
theorem c6_fallback_trigger_and_shape (args : Args) (probeDur : Nat → Nat)
    (conn : Nat → Nat → AttemptResult) (joinOk : Nat → Bool)
    (fbConnect fbConnect₂ : Nat → Nat → Bool)
    (fbRead fbRead₂ : Nat → Nat → Option (List Nat)) :
    (primaryOpenList args probeDur conn joinOk = [] →
      runScan args probeDur conn joinOk fbConnect fbRead
        = fallbackProbe fbConnect fbRead) ∧
    (primaryOpenList args probeDur conn joinOk ≠ [] →
      runScan args probeDur conn joinOk fbConnect fbRead
        = primaryOpenList args probeDur conn joinOk) ∧
    (∀ r ∈ fallbackProbe fbConnect fbRead,
      r.status = "open" ∧ (r.port = 22 ∨ r.port = 80)) ∧
    ((∀ p, fbConnect p 1000 = fbConnect₂ p 1000) →
      (∀ p, fbRead p 100 = fbRead₂ p 100) →
      fallbackProbe fbConnect fbRead = fallbackProbe fbConnect₂ fbRead₂) := by
  refine ⟨?_, ?_, fallback_members fbConnect fbRead, ?_⟩
  · intro h
    unfold runScan
    rw [h]
    simp
  · intro h
    unfold runScan
    rw [if_neg]
    simp [List.isEmpty_eq_false.mpr h]
  · intro hc hr
    unfold fallbackProbe common
    simp only [List.foldl_cons, List.foldl_nil, hc 22, hc 80, hr 22, hr 80]

/-- Witness for C6: a sweep whose single port is refused leaves the
open list empty, so the run result is exactly the fallback list; the
trivial environment agreements are also discharged. -/
theorem c6_fallback_trigger_and_shape_witness :
    (primaryOpenList
        { host := [], start := 80, «end» := 80, workers := 1, timeout := 300, json := false,
          retries := 0, adaptive := false, fast_public := false }
        (fun _ => 0) (fun _ _ => AttemptResult.refused) (fun _ => true) = []) ∧
    runScan
        { host := [], start := 80, «end» := 80, workers := 1, timeout := 300, json := false,
          retries := 0, adaptive := false, fast_public := false }
        (fun _ => 0) (fun _ _ => AttemptResult.refused) (fun _ => true)
        (fun _ _ => true) (fun _ _ => none)
      = fallbackProbe (fun _ _ => true) (fun _ _ => none) :=
  ⟨by decide,
    (c6_fallback_trigger_and_shape
        { host := [], start := 80, «end» := 80, workers := 1, timeout := 300, json := false,
          retries := 0, adaptive := false, fast_public := false }
        (fun _ => 0) (fun _ _ => AttemptResult.refused) (fun _ => true)
        (fun _ _ => true) (fun _ _ => true) (fun _ _ => none) (fun _ _ => none)).1
      (by decide)⟩

/-- Claim C7: a banner is present only on an open record; when the loop
connects at attempt `i` after timeouts, the outcome is open regardless
of the banner read, and the banner is exactly the bytes of a non-empty
successful read within the deadline, absent on a zero-byte read and
absent on a failed or timed-out read; banner presence depends only on
the byte count (the permissive decode is total), never on the byte
values. -/
theorem c7_banner_only_when_open (conn : Nat → AttemptResult) (retries port : Nat) :
    ((scanPort conn retries port).banner ≠ none →
      (scanPort conn retries port).status = "open") ∧
    (∀ i readRes, (∀ j, j < i → conn j = AttemptResult.timedOut) → i ≤ retries →
      conn i = AttemptResult.connected readRes →
      (scanPort conn retries port).status = "open" ∧
      (readRes = none → (scanPort conn retries port).banner = none) ∧
      (∀ bs, readRes = some bs → bs.length = 0 →
        (scanPort conn retries port).banner = none) ∧
      (∀ bs, readRes = some bs → 0 < bs.length →
        (scanPort conn retries port).banner = some bs)) := by
  refine ⟨attemptLoop_banner_open conn port (retries + 1) 0, ?_⟩
  intro i readRes hto hle hc
  have hrun : scanPort conn retries port
      = { port := port, status := "open", banner := bannerFrom readRes } := by
    unfold scanPort
    exact attemptLoop_reach_connected conn port readRes i (retries + 1) 0
      (by omega) (fun j hj1 hj2 => hto j (by omega)) (by simpa using hc)
  refine ⟨by rw [hrun], ?_, ?_, ?_⟩
  · intro h; rw [hrun]; simp [bannerFrom, h]
  · intro bs hbs hlen; rw [hrun]; simp [bannerFrom, hbs, hlen]
  · intro bs hbs hlen; rw [hrun]; simp [bannerFrom, hbs, hlen]

/-- Witness for C7: a first attempt that connects and reads the single
byte 72 yields an open record with banner [72]. -/
theorem c7_banner_only_when_open_witness :
    ((fun i => if i = 0 then AttemptResult.connected (some [72])
       else AttemptResult.timedOut) 0 = AttemptResult.connected (some [72])) ∧
    (scanPort (fun i => if i = 0 then AttemptResult.connected (some [72])
       else AttemptResult.timedOut) 1 80).status = "open" ∧
    (scanPort (fun i => if i = 0 then AttemptResult.connected (some [72])
       else AttemptResult.timedOut) 1 80).banner = some [72] := by
  have h := (c7_banner_only_when_open
    (fun i => if i = 0 then AttemptResult.connected (some [72])
      else AttemptResult.timedOut) 1 80).2 0 (some [72])
    (fun j hj => absurd hj (Nat.not_lt_zero j)) (Nat.zero_le 1) rfl
  exact ⟨rfl, h.1, h.2.2.2 [72] rfl (by decide)⟩

/-- Claim C10: whenever the formatted probe address fails to parse as a
socket address, the probe destination silently becomes 127.0.0.1 at the
probe port instead of the target. -/
theorem c10_parse_failure_probes_localhost (ip : List Char) (sp : Nat)
    (h : parseSocketAddr (formatAddr ip sp) = none) :
    probeDest ip sp = { ip := IpAddr.v4 127 0 0 1, port := sp } := by
  simp [probeDest, h]

/-- Witness for C10 at the IPv6 literal 2001:db8::1 joined without
brackets with probe port 22: the formatted address does not parse and
the probe destination is 127.0.0.1:22. -/
theorem c10_parse_failure_probes_localhost_witness :
    parseSocketAddr (formatAddr ("2001:db8::1".toList) 22) = none ∧
    probeDest ("2001:db8::1".toList) 22 = { ip := IpAddr.v4 127 0 0 1, port := 22 } :=
  ⟨by decide, c10_parse_failure_probes_localhost _ 22 (by decide)⟩

end PortScan
